import Mathlib

/-!
Shallow embedding of the order-resource routes of `src/server.js`
(an Express + express-validator + MariaDB HTTP service).

The embedding models:
* request bodies as ordered association lists of JSON scalars
  (object key order is what the JavaScript for-in loop of the PATCH
  handler iterates);
* the express-validator chains attached to each route, with the
  library validators (`isFloat`, `isDate`, `isDecimal`, `isISO8601`,
  `isString`, `notEmpty`, `isLength`, `optional`) and sanitizers
  (`trim`, `escape`) translated to executable Lean functions on the
  string form of a field value (the library stringifies a missing or
  numeric value before validating; a missing field stringifies to "");
* the orders table as a list of rows, `SELECT MAX(ORD_NUM)` as a fold,
  and the MariaDB coercion of a string bound into an integer
  comparison as "optional sign followed by leading digits, else 0";
* each handler as a pure function from (path parameter, body, table)
  to an outcome: the HTTP response, the table afterwards, and the list
  of SQL statements issued.
-/

namespace Server

/-- JSON scalar values exchanged with the API: request body fields,
bound SQL parameters and response fields.  The order routes only ever
handle numbers and strings. -/
inductive JVal where
  | num (n : Int)
  | str (s : String)
deriving DecidableEq

/-- A JSON object as an ordered association list; the key order is the
JavaScript object key order. -/
abbrev Body := List (String × JVal)

/-- One entry of the 400 response: a field name and its message
(`param`/`msg` in the express-validator error object). -/
structure FieldError where
  field : String
  message : String
deriving DecidableEq

/-! ### Character and string helpers (executable, kernel-friendly) -/

/-- Whitespace characters removed by the `trim` sanitizer. -/
def isWs (c : Char) : Bool := c = ' ' || c = '\t' || c = '\n' || c = '\r'

/-- Trim a character list on both ends. -/
def trimChars (cs : List Char) : List Char :=
  ((cs.dropWhile isWs).reverse.dropWhile isWs).reverse

/-- The `trim()` sanitizer of express-validator. -/
def trimStr (s : String) : String := String.mk (trimChars s.data)

/-- Numeric value of a list of decimal digit characters. -/
def digitsVal (cs : List Char) : Nat :=
  cs.foldl (fun a c => a * 10 + (c.toNat - 48)) 0

/-- Split a character list on a separator character. -/
def splitOnChar (sep : Char) (cs : List Char) : List (List Char) :=
  cs.foldr
    (fun c acc =>
      match acc with
      | [] => [[c]]
      | grp :: rest => if c = sep then [] :: grp :: rest else (c :: grp) :: rest)
    [[]]

/-- Strip one optional leading sign character. -/
def stripSign : List Char → List Char
  | '-' :: rest => rest
  | '+' :: rest => rest
  | cs => cs

/-- Does the list start with a minus sign? -/
def hasMinus : List Char → Bool
  | '-' :: _ => true
  | _ => false

/-- HTML-escaping of one character, as the `escape()` sanitizer of
validator.js does (the last branch is the backquote character, code 96). -/
def escapeChar (c : Char) : String :=
  if c = '&' then "&amp;"
  else if c = '<' then "&lt;"
  else if c = '>' then "&gt;"
  else if c = '"' then "&quot;"
  else if c = '\'' then "&#x27;"
  else if c = '/' then "&#x2F;"
  else if c = '\\' then "&#x5C;"
  else if c.toNat = 96 then "&#96;"
  else String.singleton c

/-- The `escape()` sanitizer of express-validator. -/
def escapeHtml (s : String) : String :=
  s.data.foldl (fun acc c => acc ++ escapeChar c) ""

/-! ### The validator.js checks used by the routes -/

/-- String form express-validator presents to a validator.js check: a
missing field reads as the empty string, a number as its decimal
representation, a string as itself. -/
def ovStr : Option JVal → String
  | none => ""
  | some (JVal.num n) => toString n
  | some (JVal.str s) => s

/-- validator.js `isInt` with default options: an optional sign
followed by one or more digits. -/
def isIntStr (s : String) : Bool :=
  let cs := stripSign s.data
  !cs.isEmpty && cs.all (fun c => c.isDigit)

/-- validator.js `isDecimal` with default options: an optional sign,
an optional integer part and an optional fractional part with at least
one digit after the point; the blank and sign-only strings are
blacklisted.  Note that a negative numeral such as "-5" is accepted. -/
def isDecimalStr (s : String) : Bool :=
  let cs := stripSign s.data
  let intPart := cs.takeWhile (fun c => c.isDigit)
  let rest := cs.dropWhile (fun c => c.isDigit)
  match rest with
  | [] => !intPart.isEmpty
  | '.' :: frac => !frac.isEmpty && frac.all (fun c => c.isDigit)
  | _ => false

/-- Syntactic float check of validator.js `isFloat` restricted to plain
decimal numerals (no input of this API carries an exponent part):
optional sign, optional integer digits, optional point with optional
fraction digits; blank, sign-only and lone-point strings rejected.
Returns the sign and digit parts on success. -/
def parseFloatParts (s : String) : Option (Bool × List Char × List Char) :=
  let neg := hasMinus s.data
  let cs := stripSign s.data
  let intPart := cs.takeWhile (fun c => c.isDigit)
  let rest := cs.dropWhile (fun c => c.isDigit)
  match rest with
  | [] => if intPart.isEmpty then none else some (neg, intPart, [])
  | '.' :: frac =>
      if frac.all (fun c => c.isDigit) then
        if intPart.isEmpty && frac.isEmpty then none else some (neg, intPart, frac)
      else none
  | _ => false |> fun _ => none

/-- validator.js `isFloat` with option `min: 0`: the string must be a
float numeral whose value is at least zero (a minus sign is only
admissible when every digit is zero). -/
def isFloatMin0Str (s : String) : Bool :=
  match parseFloatParts s with
  | none => false
  | some (neg, intPart, fracPart) =>
      !neg || (digitsVal intPart = 0 && digitsVal fracPart = 0)

/-- Is a year a leap year. -/
def isLeapYear (y : Nat) : Bool := (y % 4 = 0 && y % 100 ≠ 0) || y % 400 = 0

/-- Days in a month of a year. -/
def daysInMonth (y m : Nat) : Nat :=
  if m = 2 then (if isLeapYear y then 29 else 28)
  else if m = 4 || m = 6 || m = 9 || m = 11 then 30
  else 31

/-- A year-month-day segment triple forms a real calendar date:
four-digit year, one-or-two-digit month and day, month in range and day
within the month. -/
def validYMD (ys ms ds : List Char) : Bool :=
  ys.length = 4 && ys.all (fun c => c.isDigit) &&
  !ms.isEmpty && ms.length ≤ 2 && ms.all (fun c => c.isDigit) &&
  !ds.isEmpty && ds.length ≤ 2 && ds.all (fun c => c.isDigit) &&
  (let m := digitsVal ms
   let d := digitsVal ds
   1 ≤ m && m ≤ 12 && 1 ≤ d && d ≤ daysInMonth (digitsVal ys) m)

/-- validator.js `isDate` with default options: year/month/day with
either the dash or the slash delimiter, forming a real calendar date. -/
def isDateStr (s : String) : Bool :=
  match splitOnChar '-' s.data with
  | [y, m, d] => validYMD y m d
  | _ =>
    match splitOnChar '/' s.data with
    | [y, m, d] => validYMD y m d
    | _ => false

/-- validator.js `isISO8601`, restricted to the calendar-date fragment
this API exchanges (dash-delimited year, month, day). -/
def isISO8601Str (s : String) : Bool :=
  match splitOnChar '-' s.data with
  | [y, m, d] => validYMD y m d
  | _ => false

/-! ### Validation chains, as attached to the routes -/

/-- A check run against the raw (possibly absent) field value. -/
def vIsFloatMin0 (v : Option JVal) : Bool := isFloatMin0Str (ovStr v)

/-- The `isDate` check on a field value. -/
def vIsDate (v : Option JVal) : Bool := isDateStr (ovStr v)

/-- The `notEmpty` check: the string form has nonzero length. -/
def vNotEmpty (v : Option JVal) : Bool := ovStr v ≠ ""

/-- The `isDecimal` check on a field value. -/
def vIsDecimal (v : Option JVal) : Bool := isDecimalStr (ovStr v)

/-- The `isISO8601` check on a field value. -/
def vIsISO8601 (v : Option JVal) : Bool := isISO8601Str (ovStr v)

/-- The `isString` check: the raw value is a string (a missing field or
a number fails). -/
def vIsString : Option JVal → Bool
  | some (JVal.str _) => true
  | _ => false

/-- The `isLength({min: 1})` check on the string form. -/
def vIsLengthMin1 (v : Option JVal) : Bool := (ovStr v).length ≥ 1

/-- The `optional()` modifier: a missing field passes without running
the check. -/
def vOptional (check : Option JVal → Bool) : Option JVal → Bool
  | none => true
  | some x => check (some x)

/-- One express-validator chain on a body field: the field name, the
check and the message reported on failure (`Invalid value` when the
route gives no `withMessage`). -/
structure VChain where
  field : String
  check : Option JVal → Bool
  msg : String

/-- First value bound to a key of the body. -/
def lookupField : Body → String → Option JVal
  | [], _ => none
  | kv :: rest, k => if kv.1 = k then some kv.2 else lookupField rest k

/-- Run every chain to completion and collect the failures in chain
order, as `validationResult(req)` reports them. -/
def runChains : List VChain → Body → List FieldError
  | [], _ => []
  | c :: rest, b =>
      (if c.check (lookupField b c.field) then [] else [⟨c.field, c.msg⟩])
        ++ runChains rest b

/-- The chains of `app.post("/orders", [...])`. -/
def postChains : List VChain :=
  [⟨"ORD_AMOUNT", vIsFloatMin0, "ORD_AMOUNT must be a positive number"⟩,
   ⟨"ADVANCE_AMOUNT", vIsFloatMin0, "ADVANCE_AMOUNT must be a positive number"⟩,
   ⟨"ORD_DATE", vIsDate, "ORD_DATE must be a valid date"⟩,
   ⟨"CUST_CODE", vNotEmpty, "CUST_CODE is required"⟩,
   ⟨"AGENT_CODE", vNotEmpty, "AGENT_CODE is required"⟩,
   ⟨"ORD_DESCRIPTION", vNotEmpty, "ORD_DESCRIPTION is required"⟩]

/-- Validation of a POST /orders body. -/
def postValidate (b : Body) : List FieldError := runChains postChains b

/-- The body chains of `app.put("/orders/:ORD_NUM", [...])`; note that
every one of them, the description included, runs unconditionally (no
`optional()`), and that the amount checks are plain `isDecimal()`. -/
def putBodyChains : List VChain :=
  [⟨"ORD_AMOUNT", vIsDecimal, "Invalid value"⟩,
   ⟨"ADVANCE_AMOUNT", vIsDecimal, "Invalid value"⟩,
   ⟨"ORD_DATE", vIsISO8601, "Invalid value"⟩,
   ⟨"CUST_CODE", vIsString, "Invalid value"⟩,
   ⟨"AGENT_CODE", vIsString, "Invalid value"⟩,
   ⟨"ORD_DESCRIPTION", vIsString, "Invalid value"⟩]

/-- Validation of a PUT /orders/:ORD_NUM request: the `param("ORD_NUM")
.isInt()` chain followed by the body chains. -/
def putValidate (ordNumParam : String) (b : Body) : List FieldError :=
  (if isIntStr ordNumParam then [] else [⟨"ORD_NUM", "Invalid value"⟩])
    ++ runChains putBodyChains b

/-- The body chains of `app.patch("/orders/:ORD_NUM", [...])`; all
optional, and the description chain carries only the `trim()`
sanitizer, so it never fails. -/
def patchBodyChains : List VChain :=
  [⟨"ORD_AMOUNT", vOptional vIsFloatMin0, "Invalid value"⟩,
   ⟨"ADVANCE_AMOUNT", vOptional vIsFloatMin0, "Invalid value"⟩,
   ⟨"ORD_DATE", vOptional vIsDate, "Invalid value"⟩,
   ⟨"CUST_CODE", vOptional vIsLengthMin1, "Invalid value"⟩,
   ⟨"AGENT_CODE", vOptional vIsLengthMin1, "Invalid value"⟩,
   ⟨"ORD_DESCRIPTION", fun _ => true, "Invalid value"⟩]

/-- Validation of a PATCH /orders/:ORD_NUM request. -/
def patchValidate (ordNumParam : String) (b : Body) : List FieldError :=
  (if isIntStr ordNumParam then []
   else [⟨"ORD_NUM", "ORD_NUM must be an integer"⟩])
    ++ runChains patchBodyChains b

/-! ### The orders table and the SQL-level helpers -/

/-- One row of the orders table; the column set is the one named by the
INSERT statement of the POST handler. -/
structure OrderRow where
  ORD_NUM : Int
  ORD_AMOUNT : JVal
  ADVANCE_AMOUNT : JVal
  ORD_DATE : JVal
  CUST_CODE : JVal
  AGENT_CODE : JVal
  ORD_DESCRIPTION : JVal
deriving DecidableEq

/-- The orders table. -/
abbrev DB := List OrderRow

/-- The column names of the orders table, as listed by the INSERT
statement of the POST handler. -/
def ordersTableColumns : List String :=
  ["ORD_NUM", "ORD_AMOUNT", "ADVANCE_AMOUNT", "ORD_DATE",
   "CUST_CODE", "AGENT_CODE", "ORD_DESCRIPTION"]

/-- `SELECT MAX(ORD_NUM) AS maxNum FROM orders`: NULL (`none`) on an
empty table, otherwise the greatest ORD_NUM. -/
def sqlMaxOrdNum : DB → Option Int
  | [] => none
  | r :: rest => some (rest.foldl (fun m x => max m x.ORD_NUM) r.ORD_NUM)

/-- The JavaScript expression `maxNum || 0`: NULL and zero are falsy
and give 0, any other number gives itself. -/
def jsOrZero : Option Int → Int
  | none => 0
  | some m => if m = 0 then 0 else m

/-- MariaDB coercion of a string bound into an integer comparison: skip
leading whitespace, take an optional sign and the leading digits; a
string with no leading numeral coerces to 0. -/
def sqlStrToInt (s : String) : Int :=
  match trimChars s.data with
  | '-' :: rest => -(Int.ofNat (digitsVal (rest.takeWhile (fun c => c.isDigit))))
  | '+' :: rest => Int.ofNat (digitsVal (rest.takeWhile (fun c => c.isDigit)))
  | cs => Int.ofNat (digitsVal (cs.takeWhile (fun c => c.isDigit)))

/-- A parameterized SQL statement as handed to `conn.query`: the text
and the bound values. -/
structure SqlQuery where
  text : String
  params : List JVal
deriving DecidableEq

/-- An HTTP response: the status, the JSON body fields, and the
`errors` array when the body is the validation-failure object. -/
structure Response where
  status : Nat
  body : List (String × JVal)
  errors : List FieldError
deriving DecidableEq

/-- What one handler run produces: the response, the orders table
afterwards and the SQL statements issued against the pool. -/
structure Outcome where
  resp : Response
  db : DB
  queries : List SqlQuery
deriving DecidableEq

/-! ### Sanitization, as the chains rewrite `req.body` -/

/-- A `trim()` sanitizer rewrites the (present) field to the trimmed
string form of its value. -/
def trimVal (v : JVal) : JVal := JVal.str (trimStr (ovStr (some v)))

/-- A `trim().escape()` pair rewrites the (present) field to the
trimmed and then HTML-escaped string form of its value. -/
def trimEscapeVal (v : JVal) : JVal :=
  JVal.str (escapeHtml (trimStr (ovStr (some v))))

/-- POST sanitization: the three code and description chains end in
`trim()`. -/
def sanitizePost (b : Body) : Body :=
  b.map (fun kv =>
    if kv.1 = "CUST_CODE" || kv.1 = "AGENT_CODE" || kv.1 = "ORD_DESCRIPTION"
    then (kv.1, trimVal kv.2) else kv)

/-- PUT sanitization: the three string chains end in `trim().escape()`. -/
def sanitizePut (b : Body) : Body :=
  b.map (fun kv =>
    if kv.1 = "CUST_CODE" || kv.1 = "AGENT_CODE" || kv.1 = "ORD_DESCRIPTION"
    then (kv.1, trimEscapeVal kv.2) else kv)

/-- PATCH sanitization: only the description chain carries `trim()`. -/
def sanitizePatch (b : Body) : Body :=
  b.map (fun kv =>
    if kv.1 = "ORD_DESCRIPTION" then (kv.1, trimVal kv.2) else kv)

/-- Value of a body field as bound into a SQL parameter list (the
handlers destructure `req.body` after validation has guaranteed the
field is present, so the default is never reached on a validated run). -/
def bodyVal (b : Body) (k : String) : JVal :=
  (lookupField b k).getD (JVal.str "")

/-! ### The handlers -/

/-- The `app.post("/orders")` handler: check `validationResult`, read
`SELECT MAX(ORD_NUM)`, allocate `(maxNum || 0) + 1`, insert the new
row, respond 201 with the message and the allocated number. -/
def postHandler (b : Body) (db : DB) : Outcome :=
  let errors := postValidate b
  if errors ≠ [] then ⟨⟨400, [], errors⟩, db, []⟩
  else
    let sb := sanitizePost b
    let selectQ : SqlQuery := ⟨"SELECT MAX(ORD_NUM) AS maxNum FROM orders", []⟩
    let newOrderNum := jsOrZero (sqlMaxOrdNum db) + 1
    let insertQ : SqlQuery :=
      ⟨"INSERT INTO orders (ORD_NUM, ORD_AMOUNT, ADVANCE_AMOUNT, ORD_DATE, CUST_CODE, AGENT_CODE, ORD_DESCRIPTION) VALUES (?, ?, ?, ?, ?, ?, ?)",
       [JVal.num newOrderNum, bodyVal sb "ORD_AMOUNT", bodyVal sb "ADVANCE_AMOUNT",
        bodyVal sb "ORD_DATE", bodyVal sb "CUST_CODE", bodyVal sb "AGENT_CODE",
        bodyVal sb "ORD_DESCRIPTION"]⟩
    let newRow : OrderRow :=
      ⟨newOrderNum, bodyVal sb "ORD_AMOUNT", bodyVal sb "ADVANCE_AMOUNT",
       bodyVal sb "ORD_DATE", bodyVal sb "CUST_CODE", bodyVal sb "AGENT_CODE",
       bodyVal sb "ORD_DESCRIPTION"⟩
    ⟨⟨201, [("message", JVal.str "Order created successfully"),
            ("ORD_NUM", JVal.num newOrderNum)], []⟩,
     db ++ [newRow], [selectQ, insertQ]⟩

/-- Apply the fixed six-column update of the PUT statement to a row. -/
def putApply (r : OrderRow) (sb : Body) : OrderRow :=
  { r with
    ORD_AMOUNT := bodyVal sb "ORD_AMOUNT"
    ADVANCE_AMOUNT := bodyVal sb "ADVANCE_AMOUNT"
    ORD_DATE := bodyVal sb "ORD_DATE"
    CUST_CODE := bodyVal sb "CUST_CODE"
    AGENT_CODE := bodyVal sb "AGENT_CODE"
    ORD_DESCRIPTION := bodyVal sb "ORD_DESCRIPTION" }

/-- The `app.put("/orders/:ORD_NUM")` handler: check
`validationResult`, run the fixed UPDATE keyed by the raw path
parameter, 404 on zero affected rows, else `res.json` (status 200)
echoing the raw path parameter. -/
def putHandler (ordNumParam : String) (b : Body) (db : DB) : Outcome :=
  let errors := putValidate ordNumParam b
  if errors ≠ [] then ⟨⟨400, [], errors⟩, db, []⟩
  else
    let sb := sanitizePut b
    let q : SqlQuery :=
      ⟨"UPDATE orders SET ORD_AMOUNT=?, ADVANCE_AMOUNT=?, ORD_DATE=?, CUST_CODE=?, AGENT_CODE=?, ORD_DESCRIPTION=? WHERE ORD_NUM=?",
       [bodyVal sb "ORD_AMOUNT", bodyVal sb "ADVANCE_AMOUNT", bodyVal sb "ORD_DATE",
        bodyVal sb "CUST_CODE", bodyVal sb "AGENT_CODE", bodyVal sb "ORD_DESCRIPTION",
        JVal.str ordNumParam]⟩
    let key := sqlStrToInt ordNumParam
    let affected := (db.filter (fun r => r.ORD_NUM == key)).length
    let db2 := db.map (fun r => if r.ORD_NUM == key then putApply r sb else r)
    if affected = 0 then ⟨⟨404, [("message", JVal.str "Order not found")], []⟩, db2, [q]⟩
    else
      ⟨⟨200, [("message", JVal.str "Order updated"),
              ("ORD_NUM", JVal.str ordNumParam)], []⟩, db2, [q]⟩

/-- The for-in loop of the PATCH handler: push `key=?` and the value,
in body key order. -/
def patchAssemble (b : Body) : List String × List JVal :=
  b.foldl (fun acc kv => (acc.1 ++ [kv.1 ++ "=?"], acc.2 ++ [kv.2])) ([], [])

/-- Apply one `column=?` assignment of the dynamic PATCH statement to a
row (only reached when the key is a real column). -/
def patchAssign (row : OrderRow) (kv : String × JVal) : OrderRow :=
  if kv.1 = "ORD_NUM" then
    { row with ORD_NUM := match kv.2 with
        | JVal.num n => n
        | JVal.str s => sqlStrToInt s }
  else if kv.1 = "ORD_AMOUNT" then { row with ORD_AMOUNT := kv.2 }
  else if kv.1 = "ADVANCE_AMOUNT" then { row with ADVANCE_AMOUNT := kv.2 }
  else if kv.1 = "ORD_DATE" then { row with ORD_DATE := kv.2 }
  else if kv.1 = "CUST_CODE" then { row with CUST_CODE := kv.2 }
  else if kv.1 = "AGENT_CODE" then { row with AGENT_CODE := kv.2 }
  else if kv.1 = "ORD_DESCRIPTION" then { row with ORD_DESCRIPTION := kv.2 }
  else row

/-- Apply the whole dynamic SET list to a row. -/
def patchApply (row : OrderRow) (sb : Body) : OrderRow := sb.foldl patchAssign row

/-- The `app.patch("/orders/:ORD_NUM")` handler: check
`validationResult`, assemble `UPDATE orders SET <key=?, ...> WHERE
ORD_NUM=?` from the body keys, and run it.  The statement is issued
verbatim; when its SET clause is empty, or names a key that is not a
column of the table, the database rejects it and the driver error
surfaces as a 500 (the exact driver message text is external to this
repository). -/
def patchHandler (ordNumParam : String) (b : Body) (db : DB) : Outcome :=
  let errors := patchValidate ordNumParam b
  if errors ≠ [] then ⟨⟨400, [], errors⟩, db, []⟩
  else
    let sb := sanitizePatch b
    let assembled := patchAssemble sb
    let q : SqlQuery :=
      ⟨"UPDATE orders SET " ++ String.intercalate ", " assembled.1 ++ " WHERE ORD_NUM=?",
       assembled.2 ++ [JVal.str ordNumParam]⟩
    if assembled.1.isEmpty || !(sb.all (fun kv => ordersTableColumns.contains kv.1)) then
      ⟨⟨500, [("error", JVal.str "database error")], []⟩, db, [q]⟩
    else
      let key := sqlStrToInt ordNumParam
      let affected := (db.filter (fun r => r.ORD_NUM == key)).length
      let db2 := db.map (fun r => if r.ORD_NUM == key then patchApply r sb else r)
      if affected = 0 then
        ⟨⟨404, [("message", JVal.str "Order not found")], []⟩, db2, [q]⟩
      else
        ⟨⟨200, [("message", JVal.str "Order partially updated")], []⟩, db2, [q]⟩

/-- The `app.delete("/orders/:ORD_NUM")` handler.  The route attaches
`param("ORD_NUM").isInt()` but the handler body never consults
`validationResult`, so the function proceeds straight to the DELETE
with the raw path parameter; 404 on zero affected rows, else
`res.json` (status 200) echoing the raw path parameter. -/
def deleteHandler (ordNumParam : String) (db : DB) : Outcome :=
  let key := sqlStrToInt ordNumParam
  let q : SqlQuery := ⟨"DELETE FROM orders WHERE ORD_NUM=?", [JVal.str ordNumParam]⟩
  let affected := (db.filter (fun r => r.ORD_NUM == key)).length
  let db2 := db.filter (fun r => !(r.ORD_NUM == key))
  if affected = 0 then ⟨⟨404, [("message", JVal.str "Order not found")], []⟩, db2, [q]⟩
  else
    ⟨⟨200, [("message", JVal.str "Order deleted"),
            ("ORD_NUM", JVal.str ordNumParam)], []⟩, db2, [q]⟩

/-! ### Concrete fixtures used by the claims -/

/-- Scenario A creation payload. -/
def scenarioABody : Body :=
  [("ORD_AMOUNT", JVal.num 5000), ("ADVANCE_AMOUNT", JVal.num 1000),
   ("ORD_DATE", JVal.str "2025-09-28"), ("CUST_CODE", JVal.str "C00001"),
   ("AGENT_CODE", JVal.str "A003"), ("ORD_DESCRIPTION", JVal.str "New order")]

/-- Scenario D replacement payload: ORD_AMOUNT is -5 and every other
field is valid. -/
def scenarioDBody : Body :=
  [("ORD_AMOUNT", JVal.num (-5)), ("ADVANCE_AMOUNT", JVal.num 1000),
   ("ORD_DATE", JVal.str "2025-09-28"), ("CUST_CODE", JVal.str "C00001"),
   ("AGENT_CODE", JVal.str "A003"), ("ORD_DESCRIPTION", JVal.str "New order")]

/-- A replacement payload that omits ORD_DESCRIPTION and is otherwise
valid. -/
def putBodyNoDescr : Body :=
  [("ORD_AMOUNT", JVal.num 5000), ("ADVANCE_AMOUNT", JVal.num 1000),
   ("ORD_DATE", JVal.str "2025-09-28"), ("CUST_CODE", JVal.str "C00001"),
   ("AGENT_CODE", JVal.str "A003")]

/-- A PATCH payload whose single key is not a column of the orders
table. -/
def evilBody : Body := [("EVIL_COL", JVal.num 1)]

/-- A one-row orders table whose row has ORD_NUM 1. -/
def db1 : DB :=
  [⟨1, JVal.num 5000, JVal.num 1000, JVal.str "2025-09-28",
    JVal.str "C00001", JVal.str "A003", JVal.str "New order"⟩]

/-- A one-row orders table whose row has ORD_NUM 5. -/
def db5 : DB :=
  [⟨5, JVal.num 2000, JVal.num 200, JVal.str "2024-01-01",
    JVal.str "C00002", JVal.str "A005", JVal.str "Old order"⟩]

/-! ### Branch-shape lemmas: each handler unfolded to its if-tree -/

/-- The POST handler is its validation branch followed by the creation
branch. -/
theorem postHandler_eq (b : Body) (db : DB) :
    postHandler b db =
      if postValidate b ≠ [] then ⟨⟨400, [], postValidate b⟩, db, []⟩
      else
        ⟨⟨201, [("message", JVal.str "Order created successfully"),
                ("ORD_NUM", JVal.num (jsOrZero (sqlMaxOrdNum db) + 1))], []⟩,
         db ++ [⟨jsOrZero (sqlMaxOrdNum db) + 1,
                 bodyVal (sanitizePost b) "ORD_AMOUNT",
                 bodyVal (sanitizePost b) "ADVANCE_AMOUNT",
                 bodyVal (sanitizePost b) "ORD_DATE",
                 bodyVal (sanitizePost b) "CUST_CODE",
                 bodyVal (sanitizePost b) "AGENT_CODE",
                 bodyVal (sanitizePost b) "ORD_DESCRIPTION"⟩],
         [⟨"SELECT MAX(ORD_NUM) AS maxNum FROM orders", []⟩,
          ⟨"INSERT INTO orders (ORD_NUM, ORD_AMOUNT, ADVANCE_AMOUNT, ORD_DATE, CUST_CODE, AGENT_CODE, ORD_DESCRIPTION) VALUES (?, ?, ?, ?, ?, ?, ?)",
           [JVal.num (jsOrZero (sqlMaxOrdNum db) + 1),
            bodyVal (sanitizePost b) "ORD_AMOUNT",
            bodyVal (sanitizePost b) "ADVANCE_AMOUNT",
            bodyVal (sanitizePost b) "ORD_DATE",
            bodyVal (sanitizePost b) "CUST_CODE",
            bodyVal (sanitizePost b) "AGENT_CODE",
            bodyVal (sanitizePost b) "ORD_DESCRIPTION"]⟩]⟩ := rfl

/-- The PUT handler is its validation branch followed by the
affected-rows branches. -/
theorem putHandler_eq (p : String) (b : Body) (db : DB) :
    putHandler p b db =
      if putValidate p b ≠ [] then ⟨⟨400, [], putValidate p b⟩, db, []⟩
      else if (db.filter (fun r => r.ORD_NUM == sqlStrToInt p)).length = 0 then
        ⟨⟨404, [("message", JVal.str "Order not found")], []⟩,
         db.map (fun r => if r.ORD_NUM == sqlStrToInt p then putApply r (sanitizePut b) else r),
         [⟨"UPDATE orders SET ORD_AMOUNT=?, ADVANCE_AMOUNT=?, ORD_DATE=?, CUST_CODE=?, AGENT_CODE=?, ORD_DESCRIPTION=? WHERE ORD_NUM=?",
           [bodyVal (sanitizePut b) "ORD_AMOUNT", bodyVal (sanitizePut b) "ADVANCE_AMOUNT",
            bodyVal (sanitizePut b) "ORD_DATE", bodyVal (sanitizePut b) "CUST_CODE",
            bodyVal (sanitizePut b) "AGENT_CODE", bodyVal (sanitizePut b) "ORD_DESCRIPTION",
            JVal.str p]⟩]⟩
      else
        ⟨⟨200, [("message", JVal.str "Order updated"), ("ORD_NUM", JVal.str p)], []⟩,
         db.map (fun r => if r.ORD_NUM == sqlStrToInt p then putApply r (sanitizePut b) else r),
         [⟨"UPDATE orders SET ORD_AMOUNT=?, ADVANCE_AMOUNT=?, ORD_DATE=?, CUST_CODE=?, AGENT_CODE=?, ORD_DESCRIPTION=? WHERE ORD_NUM=?",
           [bodyVal (sanitizePut b) "ORD_AMOUNT", bodyVal (sanitizePut b) "ADVANCE_AMOUNT",
            bodyVal (sanitizePut b) "ORD_DATE", bodyVal (sanitizePut b) "CUST_CODE",
            bodyVal (sanitizePut b) "AGENT_CODE", bodyVal (sanitizePut b) "ORD_DESCRIPTION",
            JVal.str p]⟩]⟩ := rfl

/-- The PATCH handler is its validation branch, the malformed-statement
branch and the affected-rows branches. -/
theorem patchHandler_eq (p : String) (b : Body) (db : DB) :
    patchHandler p b db =
      if patchValidate p b ≠ [] then ⟨⟨400, [], patchValidate p b⟩, db, []⟩
      else if (patchAssemble (sanitizePatch b)).1.isEmpty
              || !((sanitizePatch b).all (fun kv => ordersTableColumns.contains kv.1)) then
        ⟨⟨500, [("error", JVal.str "database error")], []⟩, db,
         [⟨"UPDATE orders SET " ++ String.intercalate ", " (patchAssemble (sanitizePatch b)).1 ++ " WHERE ORD_NUM=?",
           (patchAssemble (sanitizePatch b)).2 ++ [JVal.str p]⟩]⟩
      else if (db.filter (fun r => r.ORD_NUM == sqlStrToInt p)).length = 0 then
        ⟨⟨404, [("message", JVal.str "Order not found")], []⟩,
         db.map (fun r => if r.ORD_NUM == sqlStrToInt p then patchApply r (sanitizePatch b) else r),
         [⟨"UPDATE orders SET " ++ String.intercalate ", " (patchAssemble (sanitizePatch b)).1 ++ " WHERE ORD_NUM=?",
           (patchAssemble (sanitizePatch b)).2 ++ [JVal.str p]⟩]⟩
      else
        ⟨⟨200, [("message", JVal.str "Order partially updated")], []⟩,
         db.map (fun r => if r.ORD_NUM == sqlStrToInt p then patchApply r (sanitizePatch b) else r),
         [⟨"UPDATE orders SET " ++ String.intercalate ", " (patchAssemble (sanitizePatch b)).1 ++ " WHERE ORD_NUM=?",
           (patchAssemble (sanitizePatch b)).2 ++ [JVal.str p]⟩]⟩ := rfl

/-- The DELETE handler is only the affected-rows branches (there is no
validation branch: the handler never consults the attached validator). -/
theorem deleteHandler_eq (s : String) (db : DB) :
    deleteHandler s db =
      if (db.filter (fun r => r.ORD_NUM == sqlStrToInt s)).length = 0 then
        ⟨⟨404, [("message", JVal.str "Order not found")], []⟩,
         db.filter (fun r => !(r.ORD_NUM == sqlStrToInt s)),
         [⟨"DELETE FROM orders WHERE ORD_NUM=?", [JVal.str s]⟩]⟩
      else
        ⟨⟨200, [("message", JVal.str "Order deleted"), ("ORD_NUM", JVal.str s)], []⟩,
         db.filter (fun r => !(r.ORD_NUM == sqlStrToInt s)),
         [⟨"DELETE FROM orders WHERE ORD_NUM=?", [JVal.str s]⟩]⟩ := rfl

/-! ### Helper lemmas -/

/-- The JavaScript `maxNum || 0` agrees with the default-to-zero read
of the optional maximum. -/
theorem jsOrZero_eq_getD (o : Option Int) : jsOrZero o = o.getD 0 := by
  cases o with
  | none => rfl
  | some m =>
      by_cases h : m = 0
      · simp [jsOrZero, h]
      · simp [jsOrZero, h]

/-- The fold computing `SELECT MAX(ORD_NUM)` dominates its seed, is
attained, and bounds every row it has seen. -/
theorem foldlMax_spec (t : DB) (a : Int) :
    a ≤ t.foldl (fun m x => max m x.ORD_NUM) a ∧
    (t.foldl (fun m x => max m x.ORD_NUM) a = a ∨
      ∃ r ∈ t, t.foldl (fun m x => max m x.ORD_NUM) a = r.ORD_NUM) ∧
    ∀ r ∈ t, r.ORD_NUM ≤ t.foldl (fun m x => max m x.ORD_NUM) a := by
  induction t generalizing a with
  | nil => simp
  | cons x xs ih =>
      simp only [List.foldl_cons]
      obtain ⟨h1, h2, h3⟩ := ih (max a x.ORD_NUM)
      refine ⟨le_trans (le_max_left _ _) h1, ?_, ?_⟩
      · rcases h2 with h | ⟨r, hr, he⟩
        · rcases max_choice a x.ORD_NUM with hm | hm
          · exact Or.inl (h.trans hm)
          · exact Or.inr ⟨x, List.mem_cons_self _ _, h.trans hm⟩
        · exact Or.inr ⟨r, List.mem_cons_of_mem _ hr, he⟩
      · intro r hr
        rcases List.mem_cons.mp hr with rfl | hr
        · exact le_trans (le_max_right _ _) h1
        · exact h3 r hr

/-- `m` is the maximum ORD_NUM of the table, taken as 0 on an empty
table (the spec description of the allocator read). -/
def isMaxOfOrders (db : DB) (m : Int) : Prop :=
  (db = [] ∧ m = 0) ∨ ((∃ r ∈ db, r.ORD_NUM = m) ∧ ∀ r ∈ db, r.ORD_NUM ≤ m)

/-- The embedded `SELECT MAX(ORD_NUM)` read, defaulted to 0, is the
maximum of the table in the sense of `isMaxOfOrders`. -/
theorem sqlMax_is_max (db : DB) : isMaxOfOrders db ((sqlMaxOrdNum db).getD 0) := by
  cases db with
  | nil => exact Or.inl ⟨rfl, rfl⟩
  | cons r t =>
      obtain ⟨h1, h2, h3⟩ := foldlMax_spec t r.ORD_NUM
      refine Or.inr ⟨?_, ?_⟩
      · rcases h2 with h | ⟨x, hx, he⟩
        · exact ⟨r, List.mem_cons_self _ _, h.symm⟩
        · exact ⟨x, List.mem_cons_of_mem _ hx, he.symm⟩
      · intro x hx
        rcases List.mem_cons.mp hx with rfl | hx
        · exact h1
        · exact h3 x hx

/-- Unrolling the for-in fold from arbitrary accumulators. -/
theorem patchAssemble_go (b : Body) (us : List String) (vs : List JVal) :
    b.foldl (fun acc kv => (acc.1 ++ [kv.1 ++ "=?"], acc.2 ++ [kv.2])) (us, vs)
      = (us ++ b.map (fun kv => kv.1 ++ "=?"), vs ++ b.map (fun kv => kv.2)) := by
  induction b generalizing us vs with
  | nil => simp
  | cons kv t ih => simp [List.foldl_cons, ih]

/-- The for-in loop pushes exactly one `key=?` fragment and one value
per body key, in body key order. -/
theorem patchAssemble_eq (b : Body) :
    patchAssemble b = (b.map (fun kv => kv.1 ++ "=?"), b.map (fun kv => kv.2)) := by
  simpa [patchAssemble] using patchAssemble_go b [] []

/-- PATCH sanitization rewrites values only: the key list is unchanged. -/
theorem sanitizePatch_keys (b : Body) :
    (sanitizePatch b).map (fun kv => kv.1) = b.map (fun kv => kv.1) := by
  induction b with
  | nil => rfl
  | cons kv t ih =>
      simp only [sanitizePatch, List.map_cons] at ih ⊢
      rw [ih]
      by_cases hk : kv.1 = "ORD_DESCRIPTION"
      · rw [if_pos hk]
      · rw [if_neg hk]

/-- PATCH sanitization leaves the generated `key=?` fragments
unchanged. -/
theorem sanitizePatch_keyFrags (b : Body) :
    (sanitizePatch b).map (fun kv => kv.1 ++ "=?")
      = b.map (fun kv => kv.1 ++ "=?") := by
  induction b with
  | nil => rfl
  | cons kv t ih =>
      simp only [sanitizePatch, List.map_cons] at ih ⊢
      rw [ih]
      by_cases hk : kv.1 = "ORD_DESCRIPTION"
      · rw [if_pos hk]
      · rw [if_neg hk]

/-- Membership in the collected validation failures: exactly the chains
whose check fails contribute, each with its field and message. -/
theorem mem_runChains {cs : List VChain} {b : Body} {e : FieldError} :
    e ∈ runChains cs b ↔
      ∃ c ∈ cs, c.check (lookupField b c.field) = false ∧ e = ⟨c.field, c.msg⟩ := by
  induction cs with
  | nil => simp [runChains]
  | cons c t ih =>
      by_cases h : c.check (lookupField b c.field)
      · rw [runChains, if_pos h, List.nil_append, ih]
        constructor
        · rintro ⟨c2, hc2, hf, he⟩
          exact ⟨c2, List.mem_cons_of_mem _ hc2, hf, he⟩
        · rintro ⟨c2, hc2, hf, he⟩
          rcases List.mem_cons.mp hc2 with rfl | hc2
          · rw [h] at hf; cases hf
          · exact ⟨c2, hc2, hf, he⟩
      · rw [runChains, if_neg h]
        simp only [List.singleton_append, List.mem_cons, ih]
        constructor
        · rintro (rfl | ⟨c2, hc2, hf, he⟩)
          · exact ⟨c, Or.inl rfl, Bool.eq_false_iff.mpr h, rfl⟩
          · exact ⟨c2, Or.inr hc2, hf, he⟩
        · rintro ⟨c2, rfl | hc2, hf, he⟩
          · exact Or.inl he
          · exact Or.inr ⟨c2, hc2, hf, he⟩

/-! ### The claims -/

/-- Claim C1: every successful order creation allocates an ORD_NUM
equal to the maximum ORD_NUM present in the table immediately before
the call plus one, the maximum taken as 0 on an empty table, and
responds 201 with the creation message and the allocated number. -/
theorem post_allocates_max_plus_one (b : Body) (db : DB)
    (h : postValidate b = []) :
    (postHandler b db).resp.status = 201 ∧
    lookupField (postHandler b db).resp.body "message"
      = some (JVal.str "Order created successfully") ∧
    ∃ m : Int, isMaxOfOrders db m ∧
      lookupField (postHandler b db).resp.body "ORD_NUM"
        = some (JVal.num (m + 1)) := by
  have he := postHandler_eq b db
  rw [if_neg (by simp [h])] at he
  refine ⟨?_, ?_, (sqlMaxOrdNum db).getD 0, sqlMax_is_max db, ?_⟩
  · rw [he]
  · rw [he]; rfl
  · rw [he, ← jsOrZero_eq_getD]; rfl

/-- Witness for C1: Scenario A on the empty table is a successful
creation and the response carries ORD_NUM 1, the message included. -/
theorem post_allocates_max_plus_one_witness :
    postValidate scenarioABody = [] ∧
    ((postHandler scenarioABody ([] : DB)).resp.status = 201 ∧
     lookupField (postHandler scenarioABody ([] : DB)).resp.body "message"
       = some (JVal.str "Order created successfully") ∧
     ∃ m : Int, isMaxOfOrders ([] : DB) m ∧
       lookupField (postHandler scenarioABody ([] : DB)).resp.body "ORD_NUM"
         = some (JVal.num (m + 1))) ∧
    lookupField (postHandler scenarioABody ([] : DB)).resp.body "ORD_NUM"
      = some (JVal.num 1) :=
  ⟨by decide, post_allocates_max_plus_one scenarioABody [] (by decide), by decide⟩

/-- Claim C2, checked at the boundary input (the claim fails on the
code): a PATCH of order 1 with the empty body passes validation, and
the handler then issues the SQL text with an empty SET clause — there
is no explicit guard rejecting the request or making it a no-op; the
malformed statement surfaces as a 500 database error. -/
theorem patch_empty_body_issues_empty_set_clause :
    patchValidate "1" ([] : Body) = [] ∧
    (patchHandler "1" [] db1).queries
      = [⟨"UPDATE orders SET  WHERE ORD_NUM=?", [JVal.str "1"]⟩] ∧
    (patchHandler "1" [] db1).resp.status = 500 := by decide

/-- Claim C3: for a non-empty validated PATCH body, the handler issues
exactly one statement whose column fragments are precisely the body
keys rendered as `key=?` joined by commas, and whose bound values are
the body values in the same key order with the path ORD_NUM appended
last. -/
theorem patch_set_columns_are_exactly_body_keys
    (ordNumParam : String) (b : Body) (db : DB)
    (hv : patchValidate ordNumParam b = []) (hne : b ≠ []) :
    (patchHandler ordNumParam b db).queries
      = [⟨"UPDATE orders SET "
            ++ String.intercalate ", " (b.map (fun kv => kv.1 ++ "=?"))
            ++ " WHERE ORD_NUM=?",
          (sanitizePatch b).map (fun kv => kv.2) ++ [JVal.str ordNumParam]⟩] ∧
    (sanitizePatch b).map (fun kv => kv.1) = b.map (fun kv => kv.1) := by
  refine ⟨?_, sanitizePatch_keys b⟩
  have hpa : patchAssemble (sanitizePatch b)
      = (b.map (fun kv => kv.1 ++ "=?"), (sanitizePatch b).map (fun kv => kv.2)) := by
    rw [patchAssemble_eq, sanitizePatch_keyFrags]
  have he := patchHandler_eq ordNumParam b db
  rw [if_neg (by simp [hv]), hpa] at he
  rw [he]
  split
  · rfl
  · split
    · rfl
    · rfl

/-- Witness for C3: a one-field PATCH of order 1 generates the
single-column statement with the value and the key bound in order. -/
theorem patch_set_columns_are_exactly_body_keys_witness :
    patchValidate "1" [("ORD_AMOUNT", JVal.num 6000)] = [] ∧
    ([("ORD_AMOUNT", JVal.num 6000)] : Body) ≠ [] ∧
    ((patchHandler "1" [("ORD_AMOUNT", JVal.num 6000)] db1).queries
       = [⟨"UPDATE orders SET "
             ++ String.intercalate ", "
                  (([("ORD_AMOUNT", JVal.num 6000)] : Body).map (fun kv => kv.1 ++ "=?"))
             ++ " WHERE ORD_NUM=?",
           (sanitizePatch [("ORD_AMOUNT", JVal.num 6000)]).map (fun kv => kv.2)
             ++ [JVal.str "1"]⟩] ∧
     (sanitizePatch [("ORD_AMOUNT", JVal.num 6000)]).map (fun kv => kv.1)
       = ([("ORD_AMOUNT", JVal.num 6000)] : Body).map (fun kv => kv.1)) :=
  ⟨by decide, by decide,
   patch_set_columns_are_exactly_body_keys "1" [("ORD_AMOUNT", JVal.num 6000)] db1
     (by decide) (by decide)⟩

/-- Claim C4, checked at a non-integer path parameter (the claim fails
on the code): `DELETE /orders/abc` is not rejected with 400 — the
attached `isInt` validator does fail on "abc", but the handler never
consults the validation result, issues the DELETE against the database
and answers 404 with no `errors` array. -/
theorem delete_invalid_ordnum_not_rejected :
    isIntStr "abc" = false ∧
    (deleteHandler "abc" db1).resp.status = 404 ∧
    ¬ (deleteHandler "abc" db1).resp.status = 400 ∧
    (deleteHandler "abc" db1).queries
      = [⟨"DELETE FROM orders WHERE ORD_NUM=?", [JVal.str "abc"]⟩] ∧
    (deleteHandler "abc" db1).resp.errors = [] := by decide

/-- Claim C5, checked at Scenario D (the claim fails on the code):
`PUT /orders/1` with ORD_AMOUNT -5 and every other field valid passes
validation entirely — `isDecimal` accepts a signed numeral — so the
response is 200 on an existing order, not 400, and no validation error
references ORD_AMOUNT. -/
theorem put_negative_amount_accepted :
    putValidate "1" scenarioDBody = [] ∧
    (putHandler "1" scenarioDBody db1).resp.status = 200 ∧
    (putHandler "1" scenarioDBody db1).resp.errors = [] := by decide

/-- Claim C5 as amended: a PUT body whose ORD_AMOUNT is the number -5
never produces a validation error whose field is ORD_AMOUNT, for any
path parameter: the ORD_AMOUNT chain is plain `isDecimal`, which
accepts signed decimal numerals. -/
theorem put_negative_amount_no_ordamount_error
    (ordNumParam : String) (b : Body)
    (h : lookupField b "ORD_AMOUNT" = some (JVal.num (-5))) :
    ∀ e ∈ putValidate ordNumParam b, e.field ≠ "ORD_AMOUNT" := by
  intro e he
  unfold putValidate at he
  rcases List.mem_append.mp he with h1 | h2
  · by_cases hp : isIntStr ordNumParam
    · rw [if_pos hp] at h1; cases h1
    · rw [if_neg hp] at h1
      rcases List.mem_singleton.mp h1 with rfl
      decide
  · obtain ⟨c, hc, hf, rfl⟩ := mem_runChains.mp h2
    simp only [putBodyChains, List.mem_cons, List.not_mem_nil, or_false] at hc
    rcases hc with rfl | rfl | rfl | rfl | rfl | rfl
    · rw [h] at hf
      exact absurd hf (by decide)
    all_goals decide

/-- Witness for the amended C5: Scenario D has ORD_AMOUNT -5 and its
validation failure list has no ORD_AMOUNT entry. -/
theorem put_negative_amount_no_ordamount_error_witness :
    lookupField scenarioDBody "ORD_AMOUNT" = some (JVal.num (-5)) ∧
    ∀ e ∈ putValidate "1" scenarioDBody, e.field ≠ "ORD_AMOUNT" :=
  ⟨by decide, put_negative_amount_no_ordamount_error "1" scenarioDBody (by decide)⟩

/-- Claim C6, checked at a description-free replacement (the claim
fails on the code): a PUT with the five other fields valid but
ORD_DESCRIPTION omitted is rejected with 400 — the ORD_DESCRIPTION
chain is `isString()` without `optional()`, and a missing field is not
a string — so the request does not pass validation and no query is
issued. -/
theorem put_missing_description_rejected :
    putValidate "1" putBodyNoDescr = [⟨"ORD_DESCRIPTION", "Invalid value"⟩] ∧
    (putHandler "1" putBodyNoDescr db1).resp.status = 400 ∧
    (putHandler "1" putBodyNoDescr db1).queries = [] := by decide

/-- Claim C7: when creation validation fails, the handler answers 400
carrying the whole collected failure list, issues no query and leaves
the table unchanged; and the collection is complete — every chain
whose check fails on the body contributes its field and message entry. -/
theorem post_validation_reports_all_violations (b : Body) (db : DB)
    (h : postValidate b ≠ []) :
    ((postHandler b db).resp.status = 400 ∧
     (postHandler b db).resp.errors = postValidate b ∧
     (postHandler b db).queries = [] ∧
     (postHandler b db).db = db) ∧
    ∀ c ∈ postChains, c.check (lookupField b c.field) = false →
      (⟨c.field, c.msg⟩ : FieldError) ∈ postValidate b := by
  constructor
  · have he := postHandler_eq b db
    rw [if_pos h] at he
    rw [he]
    exact ⟨rfl, rfl, rfl, rfl⟩
  · intro c hc hf
    exact mem_runChains.mpr ⟨c, hc, hf, rfl⟩

/-- Witness for C7: the empty creation body violates all six chains and
the collected list carries one entry per violated field, in chain
order. -/
theorem post_validation_reports_all_violations_witness :
    postValidate ([] : Body) ≠ [] ∧
    (((postHandler [] ([] : DB)).resp.status = 400 ∧
      (postHandler [] ([] : DB)).resp.errors = postValidate ([] : Body) ∧
      (postHandler [] ([] : DB)).queries = [] ∧
      (postHandler [] ([] : DB)).db = ([] : DB)) ∧
     ∀ c ∈ postChains, c.check (lookupField ([] : Body) c.field) = false →
       (⟨c.field, c.msg⟩ : FieldError) ∈ postValidate ([] : Body)) ∧
    postValidate ([] : Body)
      = [⟨"ORD_AMOUNT", "ORD_AMOUNT must be a positive number"⟩,
         ⟨"ADVANCE_AMOUNT", "ADVANCE_AMOUNT must be a positive number"⟩,
         ⟨"ORD_DATE", "ORD_DATE must be a valid date"⟩,
         ⟨"CUST_CODE", "CUST_CODE is required"⟩,
         ⟨"AGENT_CODE", "AGENT_CODE is required"⟩,
         ⟨"ORD_DESCRIPTION", "ORD_DESCRIPTION is required"⟩] :=
  ⟨by decide, post_validation_reports_all_violations [] [] (by decide), by decide⟩

/-- Claim C8, checked at a hostile key (the claim fails on the code):
a PATCH body whose key is not a column of the orders table passes
validation — the optional chains never look at unknown keys — and the
key is interpolated verbatim into the SQL text of the issued statement:
no allow-list filtering happens. -/
theorem patch_unfiltered_key_reaches_sql :
    patchValidate "1" evilBody = [] ∧
    (patchHandler "1" evilBody db1).queries
      = [⟨"UPDATE orders SET EVIL_COL=? WHERE ORD_NUM=?",
          [JVal.num 1, JVal.str "1"]⟩] ∧
    ¬ "EVIL_COL" ∈ ordersTableColumns := by decide

/-- Claim C9: deleting an existing ORD_NUM twice yields 200 with the
message and the echoed key, then 404 with the not-found message; the
second call leaves the table as the first left it; and for any table
state the 404 is taken exactly when the affected-row count of the
DELETE is zero. -/
theorem delete_twice_200_then_404 (s : String) (db : DB)
    (h : ∃ r ∈ db, r.ORD_NUM = sqlStrToInt s) :
    (deleteHandler s db).resp.status = 200 ∧
    (deleteHandler s db).resp.body
      = [("message", JVal.str "Order deleted"), ("ORD_NUM", JVal.str s)] ∧
    (deleteHandler s (deleteHandler s db).db).resp.status = 404 ∧
    (deleteHandler s (deleteHandler s db).db).resp.body
      = [("message", JVal.str "Order not found")] ∧
    (deleteHandler s (deleteHandler s db).db).db = (deleteHandler s db).db ∧
    ∀ db2 : DB, (deleteHandler s db2).resp.status = 404 ↔
      (db2.filter (fun r => r.ORD_NUM == sqlStrToInt s)).length = 0 := by
  obtain ⟨r, hr, hk⟩ := h
  have hmem : r ∈ db.filter (fun x => x.ORD_NUM == sqlStrToInt s) :=
    List.mem_filter.mpr ⟨hr, by simp [hk]⟩
  have haff : ¬ (db.filter (fun x => x.ORD_NUM == sqlStrToInt s)).length = 0 := by
    intro h0
    rw [List.length_eq_zero] at h0
    rw [h0] at hmem
    exact absurd hmem (List.not_mem_nil r)
  have he1 := deleteHandler_eq s db
  rw [if_neg haff] at he1
  have hfil2 : ((db.filter (fun x => !(x.ORD_NUM == sqlStrToInt s))).filter
      (fun x => x.ORD_NUM == sqlStrToInt s)) = [] := by
    rw [List.filter_eq_nil_iff]
    intro a ha
    have h2 := (List.mem_filter.mp ha).2
    simp only [Bool.not_eq_true'] at h2
    simp [h2]
  have he2 := deleteHandler_eq s (db.filter (fun x => !(x.ORD_NUM == sqlStrToInt s)))
  rw [if_pos (by rw [hfil2]; rfl)] at he2
  have hdb1 : (deleteHandler s db).db
      = db.filter (fun x => !(x.ORD_NUM == sqlStrToInt s)) := by rw [he1]
  refine ⟨by rw [he1], by rw [he1], ?_, ?_, ?_, ?_⟩
  · rw [hdb1, he2]
  · rw [hdb1, he2]
  · rw [hdb1, he2]
    show (db.filter (fun x => !(x.ORD_NUM == sqlStrToInt s))).filter
        (fun x => !(x.ORD_NUM == sqlStrToInt s))
      = db.filter (fun x => !(x.ORD_NUM == sqlStrToInt s))
    simp [List.filter_filter]
  · intro db2
    by_cases hz : (db2.filter (fun r => r.ORD_NUM == sqlStrToInt s)).length = 0
    · rw [deleteHandler_eq, if_pos hz]
      exact ⟨fun _ => hz, fun _ => rfl⟩
    · rw [deleteHandler_eq, if_neg hz]
      constructor
      · intro h200
        simp at h200
      · intro hcon
        exact absurd hcon hz

/-- Witness for C9: order 5 exists in its one-row table; deleting twice
gives 200 with the echoed key, then 404. -/
theorem delete_twice_200_then_404_witness :
    (∃ r ∈ db5, r.ORD_NUM = sqlStrToInt "5") ∧
    ((deleteHandler "5" db5).resp.status = 200 ∧
     (deleteHandler "5" db5).resp.body
       = [("message", JVal.str "Order deleted"), ("ORD_NUM", JVal.str "5")] ∧
     (deleteHandler "5" (deleteHandler "5" db5).db).resp.status = 404 ∧
     (deleteHandler "5" (deleteHandler "5" db5).db).resp.body
       = [("message", JVal.str "Order not found")] ∧
     (deleteHandler "5" (deleteHandler "5" db5).db).db = (deleteHandler "5" db5).db ∧
     ∀ db2 : DB, (deleteHandler "5" db2).resp.status = 404 ↔
       (db2.filter (fun r => r.ORD_NUM == sqlStrToInt "5")).length = 0) :=
  ⟨by decide, delete_twice_200_then_404 "5" db5 (by decide)⟩

/-- Claim C10: a successful PUT and a successful DELETE echo the raw
path parameter as the string ORD_NUM of the response body, a successful
POST carries a numeric ORD_NUM, and a string JSON value never equals a
numeric one — so the type of ORD_NUM differs between creation and the
keyed mutations. -/
theorem ordnum_echo_types_differ :
    (∀ (p : String) (b : Body) (db : DB),
        (putHandler p b db).resp.status = 200 →
        lookupField (putHandler p b db).resp.body "ORD_NUM"
          = some (JVal.str p)) ∧
    (∀ (p : String) (db : DB),
        (deleteHandler p db).resp.status = 200 →
        lookupField (deleteHandler p db).resp.body "ORD_NUM"
          = some (JVal.str p)) ∧
    (∀ (b : Body) (db : DB), postValidate b = [] →
        ∃ n : Int,
          lookupField (postHandler b db).resp.body "ORD_NUM"
            = some (JVal.num n)) ∧
    (∀ (s : String) (n : Int), JVal.str s ≠ JVal.num n) := by
  refine ⟨?_, ?_, ?_, ?_⟩
  · intro p b db hstat
    by_cases hv : putValidate p b ≠ []
    · rw [putHandler_eq, if_pos hv] at hstat
      simp at hstat
    · rw [putHandler_eq, if_neg hv] at hstat ⊢
      by_cases hf : (db.filter (fun r => r.ORD_NUM == sqlStrToInt p)).length = 0
      · rw [if_pos hf] at hstat
        simp at hstat
      · rw [if_neg hf]
        rfl
  · intro p db hstat
    by_cases hf : (db.filter (fun r => r.ORD_NUM == sqlStrToInt p)).length = 0
    · rw [deleteHandler_eq, if_pos hf] at hstat
      simp at hstat
    · rw [deleteHandler_eq, if_neg hf]
      rfl
  · intro b db hv
    refine ⟨jsOrZero (sqlMaxOrdNum db) + 1, ?_⟩
    rw [postHandler_eq, if_neg (by simp [hv])]
    rfl
  · intro s n hsn
    cases hsn

/-- Witness for C10: at order 1, the successful PUT and DELETE echo the
path string "1", while the successful POST on the empty table carries a
numeric ORD_NUM. -/
theorem ordnum_echo_types_differ_witness :
    ((putHandler "1" scenarioDBody db1).resp.status = 200 ∧
     lookupField (putHandler "1" scenarioDBody db1).resp.body "ORD_NUM"
       = some (JVal.str "1")) ∧
    ((deleteHandler "1" db1).resp.status = 200 ∧
     lookupField (deleteHandler "1" db1).resp.body "ORD_NUM"
       = some (JVal.str "1")) ∧
    (postValidate scenarioABody = [] ∧
     ∃ n : Int,
       lookupField (postHandler scenarioABody ([] : DB)).resp.body "ORD_NUM"
         = some (JVal.num n)) :=
  ⟨⟨by decide, ordnum_echo_types_differ.1 "1" scenarioDBody db1 (by decide)⟩,
   ⟨by decide, ordnum_echo_types_differ.2.1 "1" db1 (by decide)⟩,
   ⟨by decide, ordnum_echo_types_differ.2.2.1 scenarioABody [] (by decide)⟩⟩

end Server
